/-
Verification of the Bandersnatch interactive-fiction player (story.js).

The repository ships two variants of the script in one file: the first
variant uses CHOICE_TIME = 20 and an unconditional voice auto-restart in
recognition.onend; the second uses CHOICE_TIME = 60 and bounds automatic
restarts by MAX_RESTART_ATTEMPTS = 5.  Both variants share an identical
story graph and identical startTimer / updateDisplay logic.

This file gives a shallow embedding of the story graph, the per-choice
countdown timer, the pause flow, and the voice-recognition handlers, and
proves the specified properties about them.
-/
import Mathlib

set_option linter.unusedVariables false
set_option maxRecDepth 16000

/-- A story node: narrative text, labeled outgoing choices (label, target
key), and the ending flags.  In the source, ending nodes carry
`ending: true, showEnding: true` and declare no choices. -/
structure Node where
  text : String
  choices : List (String × String)
  ending : Bool
  showEnding : Bool
deriving DecidableEq, Repr

/-- Builds an ordinary (non-ending) node, as the object literals in
`storyNodes` do. -/
def mkNode (text : String) (choices : List (String × String)) : Node :=
  ⟨text, choices, false, false⟩

/-- Builds an ending node (`ending: true, showEnding: true`, no choices
key in the source literal). -/
def mkEnding (text : String) : Node :=
  ⟨text, [], true, true⟩

def storyNodes : List (String × Node) := [
  ("start", mkNode "( BANDERSNATCH )\n8th July 1984\n\nYou are Stefan Butler, a young programmer adapting a choose-your-own-adventure novel into a video game. Your first choice of the day awaits..."
    [("Sugar Puffs", "breakfast"), ("Frosties", "breakfast")]),
  ("breakfast", mkNode "While eating your cereal, the Thomson Twins play on TV. Your father asks if you\x27re heading to Tuckersoft today for the game development opportunity. Movie ratings flash across the screen. This could be your big break."
    [("YES", "tuckersoft-memory"), ("NO", "therapy-session")]),
  ("tuckersoft-memory", mkNode "As you prepare to leave, a sudden memory flashes - the buffer error that corrupted your game. The frustration, the late nights... The code seems to be affecting your mind. Maybe Dr. Haynes should know about this."
    [("Continue", "therapy-session")]),
  ("therapy-session", mkNode "1st Therapy Session\n\nDr. Haynes sits across from you in her office. \x27How have you been sleeping?\x27 she asks. The rabbit toy from your childhood sits on her desk. Your mother\x27s death weighs heavily on your mind. The train, the delay, the choice that changed everything..."
    [("Talk about past trauma", "talk-trauma"), ("Don\x27t talk about it", "dont-talk")]),
  ("talk-trauma", mkNode "The words pour out. You tell Dr. Haynes about that morning - how you made your mother late for the 8:45 train. How you couldn\x27t find your rabbit toy. How that delay meant she took the later train - the one that derailed. The guilt has haunted you ever since."
    [("Continue", "record-store")]),
  ("dont-talk", mkNode "Dr. Haynes notices your hesitation. \x27Stefan, bottling things up won\x27t help. Would you like to talk about what\x27s troubling you?\x27 Her eyes drift to the rabbit toy, a reminder of that fateful morning."
    [("Talk", "talk-trauma"), ("Don\x27t talk", "record-store")]),
  ("record-store", mkNode "At the record store, you browse through albums. Two catch your eye - \x27Phaedra\x27 by Tangerine Dream and \x27The Bermuda Triangle\x27 by Isao Tomita. Something about the music feels significant to your game."
    [("Phaedra", "pour-tea"), ("The Bermuda Triangle", "bermuda-path")]),
  ("pour-tea", mkNode "Pour Tea on computer"
    [("Continue", "ending-1")]),
  ("bermuda-path", mkNode "17th July 1984 → 2nd August → 20th August\n\nThe music inspires you, but your game keeps crashing at startup. The frustration builds as each attempt fails. Your father watches with growing concern as you become more obsessed. The code seems to mock you with each error."
    [("Shout at Dad", "shout-dad")]),
  ("shout-dad", mkNode "Your anger explodes. \x27Stop watching me!\x27 you scream. Your father backs away, hurt and concerned. In the silence that follows, two paths lie before you: seek help or follow Colin\x27s mysterious invitation."
    [("Follow Colin", "follow-colin"), ("Meet Dr. Haynes", "therapy-two")]),
  ("follow-colin", mkNode "Colin\x27s apartment is filled with code printouts and strange diagrams. \x27Reality is a construct,\x27 he explains, opening your mind to new possibilities. His theories about control and choice seem increasingly compelling. He offers you LSD, claiming it will help you see the truth."
    [("Take LSD", "take-lsd"), ("Refuse", "refuse-lsd")]),
  ("refuse-lsd", mkNode "You decline, but Colin smirks knowingly. \x27Choice is an illusion,\x27 he says, dropping the acid into your tea when you\x27re not looking. The world begins to shift around you..."
    [("Continue", "colin-jumps")]),
  ("take-lsd", mkNode "The acid takes hold. Reality bends and fractures. On Colin\x27s balcony, the city seems to pulse with hidden meaning. \x27One of us must jump,\x27 Colin states matter-of-factly. \x27A sacrifice for the program.\x27 The ground below seems both distant and inviting."
    [("Stefan jumps off the roof", "ending-1"), ("Colin jumps off", "colin-jumps")]),
  ("colin-jumps", mkNode "Kitty\x27s scream pierces the air as Colin steps off the balcony. You wake up in your father\x27s car, gasping. Was it real? Kitty\x27s later denial suggests otherwise, but Colin is nowhere to be found. The line between reality and fantasy blurs further."
    [("Continue", "therapy-two")]),
  ("therapy-two", mkNode "2nd Therapy Session\n\nDr. Haynes notices your agitation immediately. \x27You seem different, Stefan.\x27 The walls feel closer, the air thicker. Someone or something seems to be controlling your actions. Your body twitches with nervous energy."
    [("Bite nails", "bite-nails"), ("Pull on earlobe", "pull-earlobe")]),
  ("bite-nails", mkNode "Your teeth tear at your nails as Dr. Haynes watches. \x27Someone\x27s making you do this?\x27 she asks. She increases your medication dosage, but you feel a strange resistance to her authority. The pills sit heavily in your hand."
    [("Take pills", "take-pills"), ("Flush pills", "flush-pills"), ("Throw pills away", "throw-pills")]),
  ("pull-earlobe", mkNode "Your fingers find your earlobe, pulling rhythmically. Dr. Haynes leans forward, concerned. \x27These compulsions... they\x27re getting stronger?\x27 She writes a new prescription, but something feels wrong about the whole situation."
    [("Take pills", "take-pills"), ("Flush pills", "flush-pills"), ("Throw pills away", "throw-pills")]),
  ("take-pills", mkNode "12 Sept 1984 → 12 Sept 1984\n\nThe medication clouds your mind, but the game keeps crashing. During the delivery date preparation, everything falls apart. Colin\x27s mysterious tape appears, containing impossible knowledge about your situation."
    [("Continue", "morning-after")]),
  ("throw-pills", mkNode "Something\x27s deeply wrong. The pills fly across the room as your reality fractures. The world spins, and suddenly you\x27re on the roof. The ground below promises an escape from this controlled existence."
    [("Continue", "morning-after")]),
  ("morning-after", mkNode "Next morning, the game crashes again. Your mind races with conspiracy theories. Colin\x27s words echo in your head. The code seems alive, mocking you. Your computer screen flickers with malevolent purpose."
    [("Destroy Computer", "destroy-computer"), ("Hit Desk", "hit-desk")]),
  ("hit-desk", mkNode "Your fist slams into the desk. The pain centers you momentarily. Two objects catch your eye: a family photo from before your mother\x27s death, and a mysterious book about government control."
    [("Pick up family photo", "family-photo"), ("Pick up book", "pick-book")]),
  ("family-photo", mkNode "Wakes up at night\nSees that the phone\ngame back to over and\nover again. Realizes\nwakes up over and over\nmaking new timelines"
    [("Throw tea over computer", "netflix-path"), ("Destroy computer", "binary-path"), ("P.A.C.S", "pacs-path")]),
  ("pick-book", mkNode "The book reveals different code combinations. Each seems significant: JFD (Jerome F. Davies), PAX (Peace), PAC (Program and Control), or TOY (your childhood rabbit). Which will unlock the truth?"
    [("JFD", "jfd-path"), ("PAX", "pax-path"), ("PAC", "pac-path"), ("TOY", "toy-path")]),
  ("jfd-path", mkNode "Wrong password. Jerome F. Davies\x27 story feels connected to yours, but this isn\x27t the right path."
    [("Try again", "pick-book")]),
  ("pax-path", mkNode "Wrong password. Peace seems far away now, as your grip on reality loosens."
    [("Try again", "pick-book")]),
  ("pac-path", mkNode "Wrong password. Program and Control... the words echo in your mind. There must be more to this."
    [("Try again", "pick-book"), ("Get angry", "pacs-path")]),
  ("toy-path", mkNode "The password triggers memories of your childhood. The toy rabbit, your mother, that fateful morning... Do you want to face these memories?"
    [("Don\x27t go", "ending-5"), ("Go with Mum", "ending-7")]),
  ("pacs-path", mkNode "You discover P.A.C.S files in your father\x27s study. A keypad requires a code. The numbers seem to hold significance."
    [("2-0-5-4-1", "code-path"), ("Any other combination", "pick-book")]),
  ("code-path", mkNode "The truth unravels. Your father\x27s surveillance, the therapy sessions, the train ticket - it all connects. Your game isn\x27t just a game anymore."
    [("Continue", "kill-dad")]),
  ("kill-dad", mkNode "The truth about your father\x27s control becomes too much. In a moment of rage, you\x27ve killed him. What now?"
    [("Bury body", "bury-body"), ("Chop-up body", "chop-body"), ("Back Off", "back-off")]),
  ("bury-body", mkNode "Tucker calls about the game delivery while you\x27re burying the body. Time is running out."
    [("Tell truth", "ending-4"), ("Lie", "ending-6")]),
  ("chop-body", mkNode "You make the grim choice to dispose of the evidence piece by piece. There\x27s no going back now."
    [("Continue", "ending-4")]),
  ("back-off", mkNode "You step away from the body, horrified at what almost happened. Maybe there\x27s still a chance to finish the game without losing yourself."
    [("Continue", "ending-3")]),
  ("binary-path", mkNode "Binary branch symbol"
    [("Try to explain", "ending-8")]),
  ("netflix-path", mkNode "Netflix path begins"
    [("Give more info", "more-info"), ("Stop", "stop-info")]),
  ("more-info", mkNode "Stefan gets deep into his theory"
    [("Continue", "therapy-fight")]),
  ("therapy-fight", mkNode "3rd Therapy Session\nfight sequence begins"
    [("Yeah", "yeah-fight"), ("FUCK \x27EM", "fight-em")]),
  ("yeah-fight", mkNode "Fight sequence"
    [("Jump out the window", "ending-8"), ("Fight her", "karate-fight")]),
  ("karate-fight", mkNode "Karate fight scene"
    [("Karate chop dad", "ending-9"), ("Kill dad", "kill-dad")]),
  ("ending-1", mkEnding "#1\nFRUSTRATION TAKES ITS TOLL\n\nALL OF STEFAN\x27S WORK IS LOST AND PRESUMABLY HE DROPS OUT.\nThe pressure of game development and haunting memories prove too much. Your journey ends here, the game unfinished, your story incomplete.\nTHE END"),
  ("ending-2", mkEnding "#2\nTHE ULTIMATE SACRIFICE\n\n5/5 (AVERAGE)\nGAME IS RELEASED.\nSTEFAN IS DEAD.\nYour masterpiece is complete, but at what cost? The lines between reality and game blur until the final choice. Critics praise your work, unaware of the true price paid.\nTHE END"),
  ("ending-3", mkEnding "#3\nPERFECT BALANCE\n\n5/5 (AVERAGE)\nGAME IS RELEASED\nNOBODY DIES\nYou navigate the complexities of game development while maintaining your sanity. Bandersnatch becomes a success, and you find peace with your past.\nTHE END"),
  ("ending-4", mkEnding "#4\nTHE PRICE OF TRUTH\n\n2.5/5 (AVERAGE)\nGAME IS RELEASED\nSTEFAN GOES TO JAIL\nDAD IS DEAD\nThe dark path you chose led to tragedy. The game releases, but your actions have consequences that will follow you forever.\nTHE END"),
  ("ending-5", mkEnding "#5\nREALITY BREAKS\n\nSTEFAN IS TOO STRESSED??\nDROPS OUT??\nINCONCLUSIVE.\nThe boundaries between reality and fiction collapse. Your grip on reality slips away as the game consumes your mind.\nTHE END"),
  ("ending-6", mkEnding "#6\nTHE PERFECT CRIME\n\n5/5 (Best)\nGAME IS RELEASED\nSTEFAN ESCAPED JAIL\nDAD IS DEAD\nPost credits:\nPEARL RITMAN DECIDES TO REMAKE THE GAME AND LIKE STEFAN GOES MAD\nYour masterpiece is complete, but its dark influence lives on, claiming new victims in an endless cycle.\nTHE END"),
  ("ending-7", mkEnding "#7\nTHE TRUTH REVEALED\n\nSTEFAN REMEMBERS HIS MOTHER\x27S DEATH FROM 1ST THERAPY SESSION\nThe past comes rushing back. The weight of your choices, both past and present, becomes clear. Some memories are better left buried.\nTHE END"),
  ("ending-8", mkEnding "#8\nMETA BREAKTHROUGH\n\nTHE GREATEST FOURTH WALL BREAK EVER. HANDS DOWN.\nReality itself breaks down as you realize the truth about your existence. The audience watches, but who\x27s really in control?\nTHE END"),
  ("ending-9", mkEnding "#9\nDESCENT INTO MADNESS\n\nSTEFAN TOTALLY LOSES IT.\nPROGRAM GETS SENT TO THE ARCHIVES.\nThe pressure becomes too much. Your grip on reality slips away completely, and your work becomes a cautionary tale.\nTHE END"),
  ("ending-10", mkEnding "#10\nTOTAL COLLAPSE\n\nTHE GAME NEVER GETS RELEASED.\nTUCKERSOFT TANKS.\nSTEFAN ARRESTED FOR MURDER.\nEverything falls apart. The game, the company, your life - all destroyed by the choices made along the way.\nTHE END")]

/-- Graph lookup, `storyNodes[key]` in the source: first entry whose key
matches. -/
def lookupNode (k : String) : Option Node :=
  (storyNodes.find? (fun p => p.1 == k)).map (fun p => p.2)

/-- The choices of a node that survive rendering.  `updateDisplay` walks
`Object.entries(node.choices)` and skips any entry whose target key is not
in `storyNodes` (`if (!storyNodes[nextNode]) return;`). -/
def renderedChoices (n : Node) : List (String × String) :=
  n.choices.filter (fun c => (lookupNode c.2).isSome)

/-- What one call of `updateDisplay` puts on screen for a node. -/
structure RenderResult where
  storyText : String
  choiceButtons : List String
  endingScreen : Option (List String)
deriving DecidableEq

/-- Button labels of the ending screen built by `showEndingScreen`. -/
def endingScreenButtons : List String := ["Try Again", "Return to Menu"]

/-- `updateDisplay(node)`: sets the story text; if `node.ending` it shows
the ending screen and returns before any choice button is created;
otherwise it creates one button per rendered choice. -/
def updateDisplay (n : Node) : RenderResult :=
  if n.ending then ⟨n.text, [], some endingScreenButtons⟩
  else ⟨n.text, (renderedChoices n).map (fun c => c.1), none⟩

/-- Following the button with the given label from the node with the given
key: a button exists only for rendered choices, and ending nodes render no
buttons. -/
def choose (k label : String) : Option String :=
  match lookupNode k with
  | none => none
  | some n => if n.ending then none else (renderedChoices n).lookup label

/-- Target of the first rendered choice button of a node. -/
def firstChoiceTarget (k : String) : Option String :=
  match lookupNode k with
  | none => none
  | some n =>
      if n.ending then none
      else ((renderedChoices n).head?).map (fun c => c.2)

/-- The configured choice duration of the first script variant
(`const CHOICE_TIME = 20`). -/
def CHOICE_TIME : Nat := 20

/-- The configured choice duration of the second script variant
(`const CHOICE_TIME = 60`). -/
def CHOICE_TIME_VARIANT2 : Nat := 60

/-- State of the timer subsystem: the global `timer` handle, the ids of
intervals currently scheduled and not yet cleared, a supply of fresh
interval ids, the countdown closure variable `timeLeft`, and how many
times `showTimeUpScreen` has run. -/
structure TimerSys where
  timerHandle : Option Nat
  live : List Nat
  nextId : Nat
  timeLeft : Int
  timeUpCount : Nat
deriving DecidableEq

/-- Page load: `let timer = null`, nothing scheduled. -/
def initTimer : TimerSys := ⟨none, [], 0, 0, 0⟩

/-- `startTimer()`: `timeLeft = CHOICE_TIME`; `if (timer)` clear the old
interval; then `timer = setInterval(...)` schedules a fresh interval. -/
def startTimer (ct : Nat) (s : TimerSys) : TimerSys :=
  let cleared := match s.timerHandle with
    | some h => s.live.erase h
    | none => s.live
  ⟨some s.nextId, cleared ++ [s.nextId], s.nextId + 1, (ct : Int), s.timeUpCount⟩

/-- `clearInterval(timer)` as run by a choice click, a pause, or a
restart.  The stale handle stays in `timer`, as in the source. -/
def cancelTimer (s : TimerSys) : TimerSys :=
  match s.timerHandle with
  | some h => { s with live := s.live.erase h }
  | none => s

/-- One elapsed second.  The interval callback fires only while its
interval is still scheduled; it decrements `timeLeft` and, at zero or
below, clears the interval and runs `showTimeUpScreen` once. -/
def tick (s : TimerSys) : TimerSys :=
  match s.timerHandle with
  | some h =>
      if h ∈ s.live then
        let t := s.timeLeft - 1
        if t ≤ 0 then ⟨some h, s.live.erase h, s.nextId, t, s.timeUpCount + 1⟩
        else ⟨some h, s.live, s.nextId, t, s.timeUpCount⟩
      else s
  | none => s

/-- `showPausePopup` on the timer: `clearInterval(timer)`. -/
def pauseTimer (s : TimerSys) : TimerSys := cancelTimer s

/-- The Resume button of the pause popup: `startTimer()` with the
configured duration. -/
def resumeTimer (s : TimerSys) : TimerSys := startTimer CHOICE_TIME s

/-- The operations that touch the timer during a session. -/
inductive TOp where
  | start (ct : Nat)
  | cancel
  | tickSecond
deriving DecidableEq

/-- Applies one timer operation. -/
def applyOp (op : TOp) (s : TimerSys) : TimerSys :=
  match op with
  | TOp.start ct => startTimer ct s
  | TOp.cancel => cancelTimer s
  | TOp.tickSecond => tick s

/-- Runs a sequence of timer operations from a state. -/
def runOps (ops : List TOp) (s : TimerSys) : TimerSys :=
  ops.foldl (fun s op => applyOp op s) s

/-- The timer integrity invariant: at most one interval is scheduled, and
any scheduled interval is the one the `timer` handle names. -/
def TimerInv (s : TimerSys) : Prop :=
  s.live.length ≤ 1 ∧ ∀ h ∈ s.live, s.timerHandle = some h

instance (s : TimerSys) : Decidable (TimerInv s) := by
  unfold TimerInv; infer_instance

/-- Pause-relevant session state: the `isPaused` flag and the number of
pause overlays appended to the document. -/
structure PauseState where
  isPaused : Bool
  pauseScreens : Nat
deriving DecidableEq

/-- `showPausePopup()`: returns at once when already paused; otherwise
sets `isPaused = true` and appends one pause overlay. -/
def showPausePopup (s : PauseState) : PauseState :=
  if s.isPaused then s else ⟨true, s.pauseScreens + 1⟩

/-- Lowercases one character, as JavaScript `toLowerCase` does on the
ASCII range the transcripts and the "stop" keyword live in. -/
def charToLower (c : Char) : Char :=
  if 'A' ≤ c ∧ c ≤ 'Z' then Char.ofNat (c.toNat + 32) else c

/-- `transcript.toLowerCase()`. -/
def strToLower (s : String) : String := ⟨s.data.map charToLower⟩

/-- `pat.isPrefixOf rest || ...` recursion mirroring JavaScript
`String.prototype.includes` on the character list of a string. -/
def includesList (pat : List Char) : List Char → Bool
  | [] => pat.isEmpty
  | c :: rest => pat.isPrefixOf (c :: rest) || includesList pat rest

/-- `s.includes(pat)` of JavaScript. -/
def strIncludes (s pat : String) : Bool := includesList pat.data s.data

/-- `recognition.onresult` of the first variant: bail out when paused;
join the transcripts; if the lowercased transcript includes "stop", run
`showPausePopup`. -/
def onresult (transcript : String) (s : PauseState) : PauseState :=
  if s.isPaused then s
  else if strIncludes (strToLower transcript) "stop" then showPausePopup s
  else s

/-- Listening status of the Voice Monitor. -/
inductive ListenState where
  | listening
  | restarting
  | disconnected
deriving DecidableEq

/-- `const MAX_RESTART_ATTEMPTS = 5` of the second variant. -/
def MAX_RESTART_ATTEMPTS : Nat := 5

/-- Voice Monitor state of the second variant:
`recognitionRestartAttempts`, the shared `isPaused` flag, the number of
automatic `recognition.start()` calls issued from `onend`, and the
listening status. -/
structure VoiceMonitor where
  attempts : Nat
  isPaused : Bool
  restarts : Nat
  listen : ListenState
deriving DecidableEq

/-- `recognition.onend` of the second variant: while not paused and below
`MAX_RESTART_ATTEMPTS`, count the attempt and schedule an automatic
restart; once the bound is reached, show the disconnected notice and wait
for a click. -/
def onEnd (v : VoiceMonitor) : VoiceMonitor :=
  if v.isPaused = false ∧ v.attempts < MAX_RESTART_ATTEMPTS then
    { v with attempts := v.attempts + 1, restarts := v.restarts + 1,
             listen := ListenState.restarting }
  else if MAX_RESTART_ATTEMPTS ≤ v.attempts then
    { v with listen := ListenState.disconnected }
  else v

/-- `recognition.onresult` of the second variant resets the attempt
counter on any delivered result. -/
def onResultReset (v : VoiceMonitor) : VoiceMonitor :=
  { v with attempts := 0 }

/-- The click handler installed with the disconnected notice:
`recognitionRestartAttempts = 0; setupVoiceRecognition()`. -/
def rearmClick (v : VoiceMonitor) : VoiceMonitor :=
  { v with attempts := 0, listen := ListenState.listening }

/-- Voice Monitor state of the first variant: just `isListening` and the
number of automatic restarts issued from `onend`. -/
structure VoiceMonitorV1 where
  isListening : Bool
  restarts : Nat
deriving DecidableEq

/-- `recognition.onend` of the first variant:
`if (isListening) recognition.start()` with no bound at all. -/
def onEndV1 (v : VoiceMonitorV1) : VoiceMonitorV1 :=
  if v.isListening then { v with restarts := v.restarts + 1 } else v

/-- Claim C8: from `start`, choosing "Sugar Puffs", then "YES", then the
first listed choice of each subsequent node, traversal passes breakfast,
tuckersoft-memory, therapy-session and talk-trauma and reaches
`record-store`. -/
theorem c8_first_choice_path_reaches_record_store :
    choose "start" "Sugar Puffs" = some "breakfast"
    ∧ choose "breakfast" "YES" = some "tuckersoft-memory"
    ∧ firstChoiceTarget "tuckersoft-memory" = some "therapy-session"
    ∧ firstChoiceTarget "therapy-session" = some "talk-trauma"
    ∧ firstChoiceTarget "talk-trauma" = some "record-store" := by
  decide

/-- Claim C10: the shipped graph declares choices whose targets are
absent — destroy-computer, flush-pills (twice), stop-info and fight-em —
so the rendered choice lists of the declaring nodes are strictly shorter
than their declared choices, and morning-after renders only "Hit Desk". -/
theorem c10_shipped_graph_has_dangling_choice_targets :
    lookupNode "destroy-computer" = none
    ∧ lookupNode "flush-pills" = none
    ∧ lookupNode "stop-info" = none
    ∧ lookupNode "fight-em" = none
    ∧ (lookupNode "morning-after").map (fun n =>
        decide (("Destroy Computer", "destroy-computer") ∈ n.choices)
          && decide (renderedChoices n = [("Hit Desk", "hit-desk")])
          && decide ((renderedChoices n).length < n.choices.length)) = some true
    ∧ (lookupNode "bite-nails").map (fun n =>
        decide (("Flush pills", "flush-pills") ∈ n.choices)
          && decide ((renderedChoices n).length < n.choices.length)) = some true
    ∧ (lookupNode "pull-earlobe").map (fun n =>
        decide (("Flush pills", "flush-pills") ∈ n.choices)
          && decide ((renderedChoices n).length < n.choices.length)) = some true
    ∧ (lookupNode "netflix-path").map (fun n =>
        decide (("Stop", "stop-info") ∈ n.choices)
          && decide ((renderedChoices n).length < n.choices.length)) = some true
    ∧ (lookupNode "therapy-fight").map (fun n =>
        decide (("FUCK \x27EM", "fight-em") ∈ n.choices)
          && decide ((renderedChoices n).length < n.choices.length)) = some true := by
  decide

/-- Claim C1: for every node of the story graph and every declared choice,
either the target key is present in the graph (and the choice is
rendered), or the choice is silently omitted from the rendered choice
list.  Rendering is a total function, so a dangling target can never make
`updateDisplay` fail. -/
theorem c1_missing_target_choices_are_dropped (k : String) (n : Node)
    (hk : (k, n) ∈ storyNodes) (l t : String) (hc : (l, t) ∈ n.choices) :
    ((lookupNode t).isSome = true → (l, t) ∈ renderedChoices n)
    ∧ ((lookupNode t).isSome = false → (l, t) ∉ renderedChoices n) := by
  constructor
  · intro h
    exact List.mem_filter.mpr ⟨hc, h⟩
  · intro h hmem
    have hsome := (List.mem_filter.mp hmem).2
    rw [h] at hsome
    exact absurd hsome (by simp)

/-- Witness for C1 at the shipped node `netflix-path`, whose "Stop" choice
targets the missing key `stop-info` and is dropped from rendering. -/
theorem c1_missing_target_witness :
    ("Stop", "stop-info")
      ∉ renderedChoices
        (mkNode "Netflix path begins"
          [("Give more info", "more-info"), ("Stop", "stop-info")]) :=
  (c1_missing_target_choices_are_dropped "netflix-path"
      (mkNode "Netflix path begins"
        [("Give more info", "more-info"), ("Stop", "stop-info")])
      (by decide) "Stop" "stop-info" (by decide)).2 (by decide)

/-- Claim C7: every node of the story graph flagged `ending: true` renders
no choice buttons and shows the ending screen with exactly the Try Again
and Return to Menu actions. -/
theorem c7_ending_nodes_render_retry_and_menu_only :
    ∀ p ∈ storyNodes, p.2.ending = true →
      (updateDisplay p.2).choiceButtons = []
      ∧ (updateDisplay p.2).endingScreen = some ["Try Again", "Return to Menu"] := by
  decide

/-- Witness for C7 at the shipped node `ending-1`. -/
theorem c7_ending_witness :
    (updateDisplay ((lookupNode "ending-1").getD (mkNode "" []))).choiceButtons = []
    ∧ (updateDisplay ((lookupNode "ending-1").getD (mkNode "" []))).endingScreen
        = some ["Try Again", "Return to Menu"] :=
  c7_ending_nodes_render_retry_and_menu_only
    ("ending-1", (lookupNode "ending-1").getD (mkNode "" []))
    (by decide) (by decide)

theorem inv_shape (s : TimerSys) (hs : TimerInv s) :
    s.live = [] ∨ ∃ h0, s.live = [h0] ∧ s.timerHandle = some h0 := by
  obtain ⟨hlen, hall⟩ := hs
  rcases hl : s.live with _ | ⟨a, _ | ⟨b, tl⟩⟩
  · exact Or.inl rfl
  · exact Or.inr ⟨a, rfl, hall a (by rw [hl]; simp)⟩
  · rw [hl] at hlen
    simp at hlen

theorem startTimer_eq (ct : Nat) (s : TimerSys) (hs : TimerInv s) :
    startTimer ct s
      = ⟨some s.nextId, [s.nextId], s.nextId + 1, (ct : Int), s.timeUpCount⟩ := by
  have hcl : (match s.timerHandle with
      | some h => s.live.erase h
      | none => s.live) = [] := by
    rcases inv_shape s hs with h | ⟨h0, hl, hh⟩
    · rw [h]
      cases s.timerHandle <;> simp
    · rw [hh, hl]
      simp
  simp only [startTimer, hcl, List.nil_append]

theorem tick_run_pos (h0 n c : Nat) (t : Int) (ht : 1 < t) :
    tick ⟨some h0, [h0], n, t, c⟩ = ⟨some h0, [h0], n, t - 1, c⟩ := by
  simp only [tick, List.mem_singleton, if_true]
  rw [if_neg (by omega)]

theorem tick_run_exp (h0 n c : Nat) (t : Int) (ht : t ≤ 1) :
    tick ⟨some h0, [h0], n, t, c⟩ = ⟨some h0, [], n, t - 1, c + 1⟩ := by
  simp only [tick, List.mem_singleton, if_true]
  rw [if_pos (by omega)]
  simp

theorem tick_dead (s : TimerSys) (hd : ∀ h, s.timerHandle = some h → h ∉ s.live) :
    tick s = s := by
  obtain ⟨hdl, lv, nid, tL, c⟩ := s
  cases hdl with
  | none => rfl
  | some h0 =>
    have : h0 ∉ lv := hd h0 rfl
    simp [tick, this]

theorem tick_iter_dead (s : TimerSys)
    (hd : ∀ h, s.timerHandle = some h → h ∉ s.live) :
    ∀ m, tick^[m] s = s := by
  intro m
  induction m with
  | zero => rfl
  | succ m ih => rw [Function.iterate_succ_apply', ih, tick_dead s hd]

theorem tick_iter_run (h0 n c : Nat) (d : Nat) :
    ∀ k, k < d →
      tick^[k] ⟨some h0, [h0], n, (d : Int), c⟩
        = ⟨some h0, [h0], n, (d : Int) - (k : Int), c⟩ := by
  intro k
  induction k with
  | zero => intro _; simp
  | succ k ih =>
    intro hk
    rw [Function.iterate_succ_apply', ih (by omega), tick_run_pos]
    · congr 1
      push_cast
      ring
    · have : (k : Int) + 1 < (d : Int) := by exact_mod_cast hk
      omega

theorem tick_iter_run_full (h0 n c : Nat) (d : Nat) (hd : 1 ≤ d) :
    tick^[d] ⟨some h0, [h0], n, (d : Int), c⟩ = ⟨some h0, [], n, 0, c + 1⟩ := by
  obtain ⟨e, rfl⟩ : ∃ e, d = e + 1 := ⟨d - 1, by omega⟩
  rw [Function.iterate_succ_apply', tick_iter_run h0 n c (e + 1) e (by omega),
    tick_run_exp]
  · congr 1
    push_cast
    ring
  · push_cast
    omega

theorem expired_iter_fixed (h0 n c : Nat) (t : Int) :
    ∀ m, tick^[m] ⟨some h0, [], n, t, c⟩ = ⟨some h0, [], n, t, c⟩ := by
  apply tick_iter_dead
  intro h hh
  simp

/-- Claim C2: starting the countdown with duration d from any
invariant-respecting state and letting d ticks elapse with no choice,
pause, or cancel clears the interval and runs the time-up screen exactly
once: zero times before the d-th tick, once at it, and never again after
it. -/
theorem c2_timer_expires_exactly_once (d : Nat) (s : TimerSys)
    (hinv : TimerInv s) (hd : 1 ≤ d) :
    (∀ k, k < d → (tick^[k] (startTimer d s)).timeUpCount = s.timeUpCount)
    ∧ (tick^[d] (startTimer d s)).timeUpCount = s.timeUpCount + 1
    ∧ (tick^[d] (startTimer d s)).live = []
    ∧ (∀ m, (tick^[d + m] (startTimer d s)).timeUpCount = s.timeUpCount + 1) := by
  have hst := startTimer_eq d s hinv
  refine ⟨?_, ?_, ?_, ?_⟩
  · intro k hk
    rw [hst, tick_iter_run _ _ _ d k hk]
  · rw [hst, tick_iter_run_full _ _ _ d hd]
  · rw [hst, tick_iter_run_full _ _ _ d hd]
  · intro m
    rw [hst, add_comm d m, Function.iterate_add_apply,
      tick_iter_run_full _ _ _ d hd, expired_iter_fixed]

/-- Witness for C2 with duration 2 from the freshly loaded page. -/
theorem c2_timer_witness :
    TimerInv initTimer ∧ 1 ≤ 2
    ∧ (tick^[2] (startTimer 2 initTimer)).timeUpCount = initTimer.timeUpCount + 1
    ∧ (tick^[2] (startTimer 2 initTimer)).live = [] :=
  ⟨by decide, by decide,
    (c2_timer_expires_exactly_once 2 initTimer (by decide) (by decide)).2.1,
    (c2_timer_expires_exactly_once 2 initTimer (by decide) (by decide)).2.2.1⟩

theorem cancelTimer_live_nil (s : TimerSys) (hs : TimerInv s) :
    (cancelTimer s).live = [] := by
  rcases inv_shape s hs with h | ⟨h0, hl, hh⟩
  · unfold cancelTimer
    cases hd : s.timerHandle <;> simp [h]
  · unfold cancelTimer
    rw [hh]
    simp [hl]

theorem cancelTimer_timeLeft (s : TimerSys) :
    (cancelTimer s).timeLeft = s.timeLeft := by
  unfold cancelTimer
  split <;> rfl

theorem cancelTimer_timeUpCount (s : TimerSys) :
    (cancelTimer s).timeUpCount = s.timeUpCount := by
  unfold cancelTimer
  split <;> rfl

theorem cancelTimer_handle (s : TimerSys) :
    (cancelTimer s).timerHandle = s.timerHandle := by
  unfold cancelTimer
  split <;> rfl

theorem tick_iter_cancel_fixed (s : TimerSys) (hs : TimerInv s) :
    ∀ m, tick^[m] (cancelTimer s) = cancelTimer s := by
  apply tick_iter_dead
  intro h hh
  rw [cancelTimer_live_nil s hs]
  simp

/-- Claim C9: selecting a choice runs `clearInterval(timer)` synchronously
(`cancelTimer`), so no interval is live afterward and later ticks of that
countdown never run the time-up screen; and the cancel itself never
produces a time-up, so a choice after expiry does not fire one either. -/
theorem c9_choice_cancel_excludes_expiry (s : TimerSys) (hinv : TimerInv s) :
    (cancelTimer s).live = []
    ∧ (∀ m, (tick^[m] (cancelTimer s)).timeUpCount = s.timeUpCount)
    ∧ (cancelTimer s).timeUpCount = s.timeUpCount := by
  refine ⟨cancelTimer_live_nil s hinv, ?_, cancelTimer_timeUpCount s⟩
  intro m
  rw [tick_iter_cancel_fixed s hinv m, cancelTimer_timeUpCount s]

/-- Witness for C9 from a running countdown of 5 seconds. -/
theorem c9_choice_cancel_witness :
    TimerInv (startTimer 5 initTimer)
    ∧ (cancelTimer (startTimer 5 initTimer)).live = []
    ∧ (cancelTimer (startTimer 5 initTimer)).timeUpCount
        = (startTimer 5 initTimer).timeUpCount :=
  ⟨by decide,
    (c9_choice_cancel_excludes_expiry (startTimer 5 initTimer) (by decide)).1,
    (c9_choice_cancel_excludes_expiry (startTimer 5 initTimer) (by decide)).2.2⟩

/-- Claim C3: `showPausePopup` clears the running interval, so no further
tick changes the remaining time; the pause popup Resume button calls
`startTimer()`, which begins a fresh countdown of the full configured
CHOICE_TIME rather than the remaining time held at the pause. -/
theorem c3_pause_stops_ticks_resume_restarts_full (s : TimerSys)
    (hinv : TimerInv s) :
    (pauseTimer s).live = []
    ∧ (∀ m, (tick^[m] (pauseTimer s)).timeLeft = s.timeLeft)
    ∧ (resumeTimer (pauseTimer s)).timeLeft = (CHOICE_TIME : Int)
    ∧ (s.timeLeft ≠ (CHOICE_TIME : Int)
        → (resumeTimer (pauseTimer s)).timeLeft ≠ s.timeLeft) := by
  refine ⟨cancelTimer_live_nil s hinv, ?_, rfl, ?_⟩
  · intro m
    rw [show pauseTimer s = cancelTimer s from rfl,
      tick_iter_cancel_fixed s hinv m, cancelTimer_timeLeft s]
  · intro hne
    rw [show (resumeTimer (pauseTimer s)).timeLeft = (CHOICE_TIME : Int) from rfl]
    exact fun h => hne h.symm

/-- Witness for C3 from a countdown one second in, where 19 seconds
remain. -/
theorem c3_pause_witness :
    TimerInv (tick (startTimer CHOICE_TIME initTimer))
    ∧ (resumeTimer (pauseTimer (tick (startTimer CHOICE_TIME initTimer)))).timeLeft
        = (CHOICE_TIME : Int)
    ∧ (pauseTimer (tick (startTimer CHOICE_TIME initTimer))).live = [] :=
  ⟨by decide,
    (c3_pause_stops_ticks_resume_restarts_full
      (tick (startTimer CHOICE_TIME initTimer)) (by decide)).2.2.1,
    (c3_pause_stops_ticks_resume_restarts_full
      (tick (startTimer CHOICE_TIME initTimer)) (by decide)).1⟩

theorem timerInv_of_live_nil (s : TimerSys) (h : s.live = []) : TimerInv s := by
  constructor
  · simp [h]
  · simp [h]

theorem inv_start (ct : Nat) (s : TimerSys) (hs : TimerInv s) :
    TimerInv (startTimer ct s) := by
  rw [startTimer_eq ct s hs]
  constructor
  · simp
  · intro h hm
    simp at hm
    simp [hm]

theorem inv_cancel (s : TimerSys) (hs : TimerInv s) :
    TimerInv (cancelTimer s) :=
  timerInv_of_live_nil _ (cancelTimer_live_nil s hs)

theorem inv_tick (s : TimerSys) (hs : TimerInv s) : TimerInv (tick s) := by
  rcases inv_shape s hs with h | ⟨h0, hl, hh⟩
  · rw [tick_dead s (by intro h' _; rw [h]; simp)]
    exact hs
  · obtain ⟨hdl, lv, nid, tL, c⟩ := s
    simp only at hl hh
    subst hl
    subst hh
    simp only [tick, List.mem_singleton, if_true]
    split
    · exact timerInv_of_live_nil _ (by simp)
    · exact hs

theorem inv_runOps (ops : List TOp) :
    ∀ s, TimerInv s → TimerInv (runOps ops s) := by
  induction ops with
  | nil => intro s hs; exact hs
  | cons op rest ih =>
    intro s hs
    have hstep : runOps (op :: rest) s = runOps rest (applyOp op s) := by
      simp [runOps]
    rw [hstep]
    apply ih
    cases op with
    | start ct => exact inv_start ct s hs
    | cancel => exact inv_cancel s hs
    | tickSecond => exact inv_tick s hs

/-- Claim C6: from page load, every interleaving of start, cancel, and
tick operations keeps at most one interval scheduled (every `startTimer`
first clears the previous interval), and starting a countdown — also
right after a cancel — resets the remaining time to the new full
duration with nothing carried over. -/
theorem c6_at_most_one_timer_and_fresh_duration :
    (∀ ops : List TOp, TimerInv (runOps ops initTimer))
    ∧ (∀ (ct : Nat) (s : TimerSys), (startTimer ct s).timeLeft = (ct : Int))
    ∧ (∀ (ct : Nat) (s : TimerSys),
        (startTimer ct (cancelTimer s)).timeLeft = (ct : Int)) :=
  ⟨fun ops => inv_runOps ops initTimer (by decide),
    fun ct s => rfl, fun ct s => rfl⟩

/-- Claim C5: a delivered transcript whose lowercasing includes "stop"
while the session is not paused performs exactly one pause transition —
`isPaused` becomes true and exactly one pause overlay is appended — and a
transcript delivered while already paused leaves the state unchanged. -/
theorem c5_stop_transcript_pauses_exactly_once (t : String) (s : PauseState) :
    ((s.isPaused = false ∧ strIncludes (strToLower t) "stop" = true)
      → onresult t s = ⟨true, s.pauseScreens + 1⟩)
    ∧ (s.isPaused = true → onresult t s = s)
    ∧ (s.isPaused = true → showPausePopup s = s) := by
  refine ⟨?_, ?_, ?_⟩
  · rintro ⟨hp, hs⟩
    simp [onresult, showPausePopup, hp, hs]
  · intro hp
    simp [onresult, hp]
  · intro hp
    simp [showPausePopup, hp]

/-- Witness for C5: the transcript "Please STOP now" pauses the unpaused
initial session. -/
theorem c5_stop_transcript_witness :
    ((false = true → False) ∧ strIncludes (strToLower "Please STOP now") "stop" = true)
    ∧ onresult "Please STOP now" ⟨false, 0⟩ = ⟨true, 1⟩ :=
  ⟨⟨by decide, by decide⟩,
    (c5_stop_transcript_pauses_exactly_once "Please STOP now" ⟨false, 0⟩).1
      ⟨rfl, by decide⟩⟩

theorem onEnd_step (v : VoiceMonitor) (hp : v.isPaused = false)
    (ha : v.attempts < MAX_RESTART_ATTEMPTS) :
    onEnd v = { v with attempts := v.attempts + 1, restarts := v.restarts + 1,
                       listen := ListenState.restarting } := by
  unfold onEnd
  rw [if_pos ⟨hp, ha⟩]

theorem onEnd_sat (v : VoiceMonitor) (ha : MAX_RESTART_ATTEMPTS ≤ v.attempts) :
    onEnd v = { v with listen := ListenState.disconnected } := by
  unfold onEnd
  rw [if_neg (by rintro ⟨_, h⟩; omega), if_pos ha]

theorem onEnd_iter_le5 (r : Nat) (l : ListenState) :
    ∀ k, 1 ≤ k → k ≤ 5 →
      onEnd^[k] ⟨0, false, r, l⟩ = ⟨k, false, r + k, ListenState.restarting⟩ := by
  intro k
  induction k with
  | zero => intro h _; exact absurd h (by omega)
  | succ k ih =>
    intro _ hk5
    rcases Nat.eq_zero_or_pos k with hk0 | hkpos
    · subst hk0
      rw [Function.iterate_one]
      exact (onEnd_step _ rfl
        (by show (0 : Nat) < MAX_RESTART_ATTEMPTS; decide)).trans rfl
    · rw [Function.iterate_succ_apply', ih hkpos (by omega)]
      exact (onEnd_step _ rfl
        (by show k < MAX_RESTART_ATTEMPTS; unfold MAX_RESTART_ATTEMPTS; omega)).trans rfl

theorem onEnd_iter_past5 (r : Nat) (l : ListenState) (m : Nat) :
    onEnd^[6 + m] ⟨0, false, r, l⟩
      = ⟨5, false, r + 5, ListenState.disconnected⟩ := by
  induction m with
  | zero =>
    rw [show (6 + 0 : Nat) = 5 + 1 from rfl, Function.iterate_succ_apply',
      onEnd_iter_le5 r l 5 (by omega) (by omega)]
    exact (onEnd_sat _
      (by show MAX_RESTART_ATTEMPTS ≤ 5; decide)).trans rfl
  | succ m ih =>
    rw [show (6 + (m + 1) : Nat) = (6 + m) + 1 from rfl,
      Function.iterate_succ_apply', ih]
    exact (onEnd_sat _
      (by show MAX_RESTART_ATTEMPTS ≤ 5; decide)).trans rfl

/-- Claim C4 (amended to the second script variant): starting with a fresh
attempt counter and not paused, n consecutive end-without-stop events
issue min n 5 automatic restarts — never a sixth —, the counter saturates
at MAX_RESTART_ATTEMPTS from the fifth event on, any further end event
leaves the monitor disconnected, and only the re-arm click resets the
counter. -/
theorem c4_restart_bound_variant2 (v : VoiceMonitor)
    (ha : v.attempts = 0) (hp : v.isPaused = false) :
    (∀ n, (onEnd^[n] v).restarts = v.restarts + min n MAX_RESTART_ATTEMPTS)
    ∧ (∀ n, (onEnd^[n] v).restarts ≤ v.restarts + MAX_RESTART_ATTEMPTS)
    ∧ (∀ n, 6 ≤ n → (onEnd^[n] v).listen = ListenState.disconnected)
    ∧ (∀ n, 5 ≤ n → (onEnd^[n] v).attempts = MAX_RESTART_ATTEMPTS
        ∧ (rearmClick (onEnd^[n] v)).attempts = 0) := by
  obtain ⟨a, p, r, l⟩ := v
  simp only at ha hp
  subst ha
  subst hp
  have key : ∀ n, onEnd^[n] (⟨0, false, r, l⟩ : VoiceMonitor)
      = if n = 0 then ⟨0, false, r, l⟩
        else if n ≤ 5 then ⟨n, false, r + n, ListenState.restarting⟩
        else ⟨5, false, r + 5, ListenState.disconnected⟩ := by
    intro n
    rcases Nat.eq_zero_or_pos n with h0 | hpos
    · subst h0
      simp
    · rcases le_or_lt n 5 with h5 | h6
      · rw [onEnd_iter_le5 r l n hpos h5, if_neg (by omega), if_pos h5]
      · obtain ⟨m, rfl⟩ : ∃ m, n = 6 + m := ⟨n - 6, by omega⟩
        rw [onEnd_iter_past5 r l m, if_neg (by omega), if_neg (by omega)]
  refine ⟨?_, ?_, ?_, ?_⟩
  · intro n
    rcases Nat.eq_zero_or_pos n with h0 | hpos
    · subst h0
      simp [MAX_RESTART_ATTEMPTS]
    · rcases le_or_lt n 5 with h5 | h6
      · rw [key n, if_neg (by omega), if_pos h5]
        show r + n = r + min n MAX_RESTART_ATTEMPTS
        unfold MAX_RESTART_ATTEMPTS
        omega
      · rw [key n, if_neg (by omega), if_neg (by omega)]
        show r + 5 = r + min n MAX_RESTART_ATTEMPTS
        unfold MAX_RESTART_ATTEMPTS
        omega
  · intro n
    rcases Nat.eq_zero_or_pos n with h0 | hpos
    · subst h0
      show r ≤ r + MAX_RESTART_ATTEMPTS
      omega
    · rcases le_or_lt n 5 with h5 | h6
      · rw [key n, if_neg (by omega), if_pos h5]
        show r + n ≤ r + MAX_RESTART_ATTEMPTS
        unfold MAX_RESTART_ATTEMPTS
        omega
      · rw [key n, if_neg (by omega), if_neg (by omega)]
        show r + 5 ≤ r + MAX_RESTART_ATTEMPTS
        unfold MAX_RESTART_ATTEMPTS
        omega
  · intro n hn
    rw [key n, if_neg (by omega), if_neg (by omega)]
  · intro n hn
    rcases le_or_lt n 5 with h5 | h6
    · have hn5 : n = 5 := by omega
      subst hn5
      rw [key 5, if_neg (by omega), if_pos (by omega)]
      exact ⟨rfl, rfl⟩
    · rw [key n, if_neg (by omega), if_neg (by omega)]
      exact ⟨rfl, rfl⟩

/-- Witness for C4 (amended): six consecutive end events from a fresh
monitor issue exactly five automatic restarts and leave it
disconnected. -/
theorem c4_restart_bound_witness :
    (onEnd^[6] ⟨0, false, 0, ListenState.listening⟩).restarts
        = 0 + min 6 MAX_RESTART_ATTEMPTS
    ∧ (onEnd^[6] ⟨0, false, 0, ListenState.listening⟩).listen
        = ListenState.disconnected :=
  ⟨(c4_restart_bound_variant2 ⟨0, false, 0, ListenState.listening⟩ rfl rfl).1 6,
    (c4_restart_bound_variant2 ⟨0, false, 0, ListenState.listening⟩ rfl rfl).2.2.1
      6 (by omega)⟩

/-- Counterexample to C4 as stated: in the first script variant,
`recognition.onend` restarts recognition unconditionally while
`isListening` holds, so six consecutive end events issue six automatic
restarts — a sixth consecutive automatic restart does occur. -/
theorem c4_unbounded_variant1_counterexample :
    (onEndV1^[6] ⟨true, 0⟩).restarts = 6 ∧ 5 < (onEndV1^[6] ⟨true, 0⟩).restarts := by
  decide
